import Mathlib

/-!
Shallow embedding of the Traeger Home Assistant integration's derived-state
machines: the cook-cycle sequencer (`custom_components/traeger/number.py`),
and the heating / probe classifiers (`custom_components/traeger/sensor.py`).
Machine side effects (Home Assistant service calls) are modelled as explicit
command lists; a Python `IndexError` is modelled as an `Option.none` result.
-/

set_option linter.unnecessarySeqFocus false

namespace Traeger

/-- Grill system-status modes imported from `const.py` by both source files. -/
inductive GrillMode
  | offline
  | sleeping
  | idle
  | igniting
  | preheating
  | manual_cook
  | custom_cook
  | cool_down
  | shutdown
deriving DecidableEq, Repr

/-- Modelled from the spec: the numeric `GRILL_MODE_*` codes live in
`const.py`, which is not part of the provided sources. The spec's glossary
defines the active-cooking range "igniting through custom_cook" as
{igniting, preheating, manual/custom cook}, which fixes the ordering used by
`TraegerNumberEntity.async_set_native_value`. -/
def modeCode : GrillMode → ℕ
  | GrillMode.sleeping => 2
  | GrillMode.idle => 3
  | GrillMode.igniting => 4
  | GrillMode.preheating => 5
  | GrillMode.manual_cook => 6
  | GrillMode.custom_cook => 7
  | GrillMode.cool_down => 8
  | GrillMode.shutdown => 9
  | GrillMode.offline => 99

/-- Temperature unit system reported by the grill. -/
inductive TempUnits
  | celsius
  | fahrenheit
deriving DecidableEq, Repr

/-- The fields of the grill-state snapshot that the embedded logic reads. -/
structure GrillState where
  system_status : GrillMode
  cook_timer_complete : Bool
  probe_alarm_fired : Bool
  grill : ℚ
  probe : ℚ
  set : ℚ
  smoke : ℤ
  keepwarm : ℤ
  connected : Bool
deriving DecidableEq, Repr

/-- The grill limits record (`self.grill_limits`). -/
structure GrillLimits where
  max_grill_temp : ℚ
deriving DecidableEq, Repr

/-- The grill features record (`self.grill_features`). -/
structure GrillFeatures where
  super_smoke_enabled : ℤ
deriving DecidableEq, Repr

/-- A sparse cook step: `none` models the key being absent from the dict. -/
structure CookStep where
  use_timer : Option Bool := none
  time_set : Option ℚ := none
  set_temp : Option ℚ := none
  probe_set_temp : Option ℚ := none
  act_temp_adv : Option ℚ := none
  probe_act_temp_adv : Option ℚ := none
  min_delta : Option ℚ := none
  max_grill_delta_temp : Option ℚ := none
  smoke : Option ℤ := none
  keepwarm : Option ℤ := none
  shutdown : Option ℤ := none
deriving DecidableEq, Repr

/-- Mutable state of `CookCycNumberEntity`: the current index, the
previous-evaluation index and the loaded step list. -/
structure CookCycState where
  num_value : ℕ
  old_num_value : ℕ
  cook_cycle : List CookStep
deriving DecidableEq, Repr

/-- Outbound fire-and-forget service calls issued by the sequencer. -/
inductive Cmd
  | setTimer (minutes : ℤ)
  | setProbeTemp (temp : ℤ)
  | setGrillTemp (temp : ℤ)
  | smokeOn
  | smokeOff
  | keepwarmOn
  | keepwarmOff
  | hvacCool
deriving DecidableEq, Repr

/-- Python's `round`: round half to even (banker's rounding). The floor and
the comparison of the fractional part with one half are carried out on the
numerator and denominator so the definition reduces in the kernel. -/
def pyRound (q : ℚ) : ℤ :=
  let f := Int.fdiv q.num (q.den : ℤ)
  let rem := q.num - f * (q.den : ℤ)
  if 2 * rem < (q.den : ℤ) then f
  else if (q.den : ℤ) < 2 * rem then f + 1
  else if f % 2 = 0 then f else f + 1

/-- The modes in which a positive cook-cycle index is reset to 0
(`number.py` lines 103-111). -/
def stopModes : List GrillMode :=
  [GrillMode.cool_down, GrillMode.sleeping, GrillMode.shutdown, GrillMode.idle]

/-- The advance-condition chain of `native_value` (`number.py` lines 116-127):
key presence decides the branch, then the value decides the advance. -/
def advanceFires (curstep : CookStep) (gs : GrillState) : Bool :=
  match curstep.use_timer with
  | some b => b && gs.cook_timer_complete
  | none =>
    if gs.probe_alarm_fired then true
    else
      match curstep.act_temp_adv with
      | some t => decide (gs.grill > t)
      | none =>
        match curstep.probe_act_temp_adv with
        | some t => decide (gs.probe > t)
        | none => false

/-- The in-step-change sub-block (`number.py` lines 130-150): when the step
has both `min_delta` and `max_grill_delta_temp`, clamp the latter into the
step record, then possibly emit a raise-target-by-5 climate command. -/
def raiseTargetCmds (curstep : CookStep) (gs : GrillState) (limits : GrillLimits) :
    List Cmd × CookStep :=
  match curstep.min_delta, curstep.max_grill_delta_temp with
  | some md, some mgdt =>
    let mgdt2 := if mgdt > limits.max_grill_temp then limits.max_grill_temp else mgdt
    let curstep2 := { curstep with max_grill_delta_temp := some mgdt2 }
    if gs.set < mgdt2 ∧ gs.probe > gs.set - md then
      ([Cmd.setGrillTemp (pyRound (gs.set + 5))], curstep2)
    else ([], curstep2)
  | _, _ => ([], curstep)

/-- The step-entry block body (`number.py` lines 156-247): the commands a
newly entered step emits, in source order, plus whether the step is a
shutdown step (which resets the index to 0). -/
def stepEntryCmds (curstep : CookStep) (gs : GrillState) (features : GrillFeatures) :
    List Cmd × Bool :=
  let c1 := match curstep.time_set with
    | some t => [Cmd.setTimer (pyRound t)]
    | none => []
  let c2 := match curstep.probe_set_temp with
    | some t => [Cmd.setProbeTemp (pyRound t)]
    | none => []
  let c3 := match curstep.set_temp with
    | some t => [Cmd.setGrillTemp (pyRound t)]
    | none => []
  let c4 := match curstep.smoke with
    | some sm =>
      if features.super_smoke_enabled = 1 ∧ gs.smoke ≠ sm ∧ gs.set ≤ 225 then
        (if sm = 1 then [Cmd.smokeOn] else [Cmd.smokeOff])
      else []
    | none => []
  let c5 := match curstep.keepwarm with
    | some kw =>
      if gs.keepwarm ≠ kw then (if kw = 1 then [Cmd.keepwarmOn] else [Cmd.keepwarmOff])
      else []
    | none => []
  let c6s : List Cmd × Bool := match curstep.shutdown with
    | some sd => if sd = 1 then ([Cmd.hvacCool], true) else ([], false)
    | none => ([], false)
  (c1 ++ c2 ++ c3 ++ c4 ++ c5 ++ c6s.1, c6s.2)

/-- The scan-for-next-step-advance block (`number.py` lines 114-150).
`none` models a Python `IndexError` on the list access. -/
def advanceBlock (st : CookCycState) (gs : GrillState) (limits : GrillLimits) :
    Option (ℕ × List CookStep × List Cmd) :=
  if 0 < st.num_value ∧ st.num_value = st.old_num_value then
    match st.cook_cycle.get? (st.num_value - 1) with
    | none => none
    | some curstep =>
      let num1 := if advanceFires curstep gs then st.num_value + 1 else st.num_value
      let rc := raiseTargetCmds curstep gs limits
      some (num1, st.cook_cycle.set (st.num_value - 1) rc.2, rc.1)
  else some (st.num_value, st.cook_cycle, [])

/-- The implement-next-step block (`number.py` lines 153-247). `none`
models a Python `IndexError` on the list access. -/
def entryBlock (num1 : ℕ) (old : ℕ) (cyc : List CookStep) (gs : GrillState)
    (features : GrillFeatures) : Option (ℕ × List Cmd) :=
  if 0 < num1 ∧ num1 ≠ old then
    match cyc.get? (num1 - 1) with
    | none => none
    | some curstep =>
      let ec := stepEntryCmds curstep gs features
      some (if ec.2 then 0 else num1, ec.1)
  else some (num1, [])

/-- The tail of `native_value` (`number.py` lines 248-253): record the
previous index, then clamp an index beyond the list to 0 and return. -/
def finishEval (num2 : ℕ) (cyc : List CookStep) (cmds : List Cmd) :
    ℕ × CookCycState × List Cmd :=
  let final := if num2 > cyc.length then 0 else num2
  (final, ⟨final, num2, cyc⟩, cmds)

/-- `CookCycNumberEntity.native_value` (`number.py` lines 88-253): returns
the reported value, the updated entity state and the issued commands, or
`none` when the Python code would raise `IndexError`. -/
def nativeValue (st : CookCycState) (gso : Option GrillState) (limits : GrillLimits)
    (features : GrillFeatures) : Option (ℕ × CookCycState × List Cmd) :=
  match gso with
  | none => some (0, { st with num_value := 0 }, [])
  | some gs =>
    if st.num_value > st.cook_cycle.length then
      some (0, { st with num_value := 0 }, [])
    else if 0 < st.num_value ∧ gs.system_status ∈ stopModes then
      some (0, { st with num_value := 0 }, [])
    else
      match advanceBlock st gs limits with
      | none => none
      | some (num1, cyc1, cmds1) =>
        match entryBlock num1 st.old_num_value cyc1 gs features with
        | none => none
        | some (num2, cmds2) => some (finishEval num2 cyc1 (cmds1 ++ cmds2))

/-- `CookCycNumberEntity.async_set_native_value` (`number.py` lines 292-296):
the operator jumps the index. -/
def setNativeValue (st : CookCycState) (v : ℕ) : CookCycState :=
  { st with num_value := v }

/-- The action performed by the plain timer entity's setter. -/
inductive TimerAction
  | noop
  | setTimerSec (secs : ℤ)
  | resetTimer
deriving DecidableEq, Repr

/-- `TraegerNumberEntity.async_set_native_value` (`number.py` lines 374-386):
sets or resets the cook timer, or raises `NotImplementedError`. -/
def timerSetNativeValue (gso : Option GrillState) (value : ℚ) :
    Except String TimerAction :=
  match gso with
  | none => Except.ok TimerAction.noop
  | some gs =>
    if modeCode GrillMode.igniting ≤ modeCode gs.system_status ∧
        modeCode gs.system_status ≤ modeCode GrillMode.custom_cook then
      if value ≥ 1 then Except.ok (TimerAction.setTimerSec (pyRound value * 60))
      else Except.ok TimerAction.resetTimer
    else Except.error "Set Timer not supported in current state."

/-- True when an `Except` value is `ok`. -/
def exceptIsOk : Except String TimerAction → Bool
  | Except.ok _ => true
  | Except.error _ => false

/-- Modelled from the spec: `GRILL_MIN_TEMP_C` comes from `const.py`, which
is not part of the provided sources; the spec only says the
minimum-cook-temperature per unit is a fixed constant. -/
def GRILL_MIN_TEMP_C : ℚ := 75

/-- Modelled from the spec: `GRILL_MIN_TEMP_F` comes from `const.py`, which
is not part of the provided sources; the spec only says the
minimum-cook-temperature per unit is a fixed constant. -/
def GRILL_MIN_TEMP_F : ℚ := 165

/-- The hysteresis swing of the heating classifier (`sensor.py` line 205). -/
def tempSwing (u : TempUnits) : ℚ :=
  if u = TempUnits.celsius then 11 else 20

/-- Retained state of `HeatingState`: previous target and previous label. -/
structure HeatingClassState where
  previous_target_temp : Option ℚ
  previous_state : String
deriving DecidableEq, Repr

/-- `self.preheat_modes` of `HeatingState` (`sensor.py` line 181). -/
def preheatModes : List GrillMode :=
  [GrillMode.preheating, GrillMode.igniting]

/-- `self.cook_modes` of `HeatingState` (`sensor.py` line 182). -/
def cookModes : List GrillMode :=
  [GrillMode.custom_cook, GrillMode.manual_cook]

/-- `HeatingState.state` (`sensor.py` lines 193-258): returns the label and
the updated retained state. An unavailable snapshot returns early with the
retained state untouched. -/
def heatingState (st : HeatingClassState) (gso : Option GrillState) (u : TempUnits) :
    String × HeatingClassState :=
  match gso with
  | none => ("idle", st)
  | some gs =>
    let target_temp := gs.set
    let grill_mode := gs.system_status
    let current_temp := gs.grill
    let target_changed : Bool := decide (some target_temp ≠ st.previous_target_temp)
    let min_cook_temp := if u = TempUnits.celsius then GRILL_MIN_TEMP_C else GRILL_MIN_TEMP_F
    let low_temp := target_temp - tempSwing u
    let high_temp := target_temp + tempSwing u
    let state :=
      if grill_mode ∈ preheatModes then
        if current_temp < min_cook_temp then "preheating" else "heating"
      else if grill_mode ∈ cookModes then
        let hyst : String × Bool :=
          if st.previous_state = "heating" ∨ st.previous_state = "preheating" then
            (if current_temp ≥ target_temp then "at_temp" else "heating", target_changed)
          else if st.previous_state = "cooling" then
            (if current_temp ≤ target_temp then "at_temp" else "cooling", target_changed)
          else if st.previous_state = "at_temp" then
            (if current_temp > high_temp then "over_temp"
             else if current_temp < low_temp then "under_temp"
             else "at_temp", target_changed)
          else if st.previous_state = "under_temp" then
            (if current_temp > low_temp then "at_temp" else "under_temp", target_changed)
          else if st.previous_state = "over_temp" then
            (if current_temp < high_temp then "at_temp" else "over_temp", target_changed)
          else
            ("idle", true)
        if hyst.2 then (if current_temp ≤ target_temp then "heating" else "cooling")
        else hyst.1
      else if grill_mode = GrillMode.cool_down then "cool_down"
      else "idle"
    (state, ⟨some target_temp, state⟩)

/-- `TraegerBaseSensor.available` as inherited by `HeatingState`
(`sensor.py` lines 55-60): a pure read that never touches the retained
classifier state. -/
def heatingAvailable (st : HeatingClassState) (gso : Option GrillState) :
    Bool × HeatingClassState :=
  match gso with
  | none => (false, st)
  | some gs => (gs.connected, st)

/-- The fields of a probe accessory that the embedded logic reads;
`alarm_fired = none` models the accessory dict having no such key. -/
structure Accessory where
  con : Bool
  set_temp : ℚ
  get_temp : ℚ
  alarm_fired : Option Bool
deriving DecidableEq, Repr

/-- Retained state of `ProbeState`: previous target and the alarm latch. -/
structure ProbeClassState where
  previous_target_temp : Option ℚ
  probe_alarm : Bool
deriving DecidableEq, Repr

/-- `self.active_modes` of `ProbeState` (`sensor.py` lines 272-275). -/
def probeActiveModes : List GrillMode :=
  [GrillMode.preheating, GrillMode.igniting, GrillMode.custom_cook, GrillMode.manual_cook]

/-- The fell-out threshold of the probe classifier (`sensor.py` line 331). -/
def fellOutTemp (u : TempUnits) : ℚ :=
  if u = TempUnits.celsius then 102 else 215

/-- `ProbeState.state` (`sensor.py` lines 320-357): returns the label and
the updated retained state (previous target and alarm latch). -/
def probeStateEval (st : ProbeClassState) (acco : Option Accessory) (gs : GrillState)
    (u : TempUnits) : String × ProbeClassState :=
  match acco with
  | none => ("idle", st)
  | some a =>
    let target_temp := a.set_temp
    let probe_temp := a.get_temp
    let target_changed : Bool := decide (some target_temp ≠ st.previous_target_temp)
    let grill_mode := gs.system_status
    let alarm1 : Bool :=
      match a.alarm_fired with
      | none => false
      | some af =>
        if af then true
        else if (target_changed ∧ target_temp ≠ 0) ∨ grill_mode ∉ probeActiveModes then
          false
        else st.probe_alarm
    let res : String × Bool :=
      if probe_temp ≥ fellOutTemp u then ("fell_out", alarm1)
      else if alarm1 then ("at_temp", alarm1)
      else if target_temp ≠ 0 ∧ grill_mode ∈ probeActiveModes then
        let close_temp : ℚ := if u = TempUnits.celsius then 3 else 5
        (if probe_temp + close_temp ≥ target_temp then "close" else "set", alarm1)
      else ("idle", false)
    (res.1, ⟨some target_temp, res.2⟩)

/-- `ProbeState.available` (`sensor.py` lines 294-307): clears the alarm
latch whenever it is about to report unavailable. -/
def probeAvailable (st : ProbeClassState) (gso : Option GrillState)
    (acco : Option Accessory) : Bool × ProbeClassState :=
  match gso, acco with
  | none, _ => (false, { st with probe_alarm := false })
  | some _, none => (false, { st with probe_alarm := false })
  | some gs, some a =>
    if gs.connected = false then (false, { st with probe_alarm := false })
    else if a.con then (true, st)
    else (false, { st with probe_alarm := false })

/-- A probe evaluation input that keeps an already-set latch alive: the
alarm key is present but false, the probe is below the fell-out threshold,
the grill is in an active-cooking mode, and the latch-clear condition
(target changed to a nonzero value) does not hold for the current state. -/
def probeBenign (st : ProbeClassState) (a : Accessory) (gs : GrillState)
    (u : TempUnits) : Bool :=
  decide (a.alarm_fired = some false) &&
  decide (a.get_temp < fellOutTemp u) &&
  decide (gs.system_status ∈ probeActiveModes) &&
  !(decide (some a.set_temp ≠ st.previous_target_temp) && decide (a.set_temp ≠ 0))

/-- `probeBenign` holding along a whole trace of evaluations, threading the
evolving retained state. -/
def probeBenignChain : ProbeClassState → List (Accessory × GrillState) → TempUnits → Bool
  | _, [], _ => true
  | st, (a, gs) :: rest, u =>
    probeBenign st a gs u &&
    probeBenignChain (probeStateEval st (some a) gs u).2 rest u

/-- The labels returned along a trace of probe evaluations. -/
def probeLabels : ProbeClassState → List (Accessory × GrillState) → TempUnits → List String
  | _, [], _ => []
  | st, (a, gs) :: rest, u =>
    let r := probeStateEval st (some a) gs u
    r.1 :: probeLabels r.2 rest u

/-- The retained state after a trace of probe evaluations. -/
def probeFinalState : ProbeClassState → List (Accessory × GrillState) → TempUnits → ProbeClassState
  | st, [], _ => st
  | st, (a, gs) :: rest, u =>
    probeFinalState (probeStateEval st (some a) gs u).2 rest u

/-- All three guard clauses of `native_value` reset the index to 0, emit no
command and leave `old_num_value` and the step list untouched. -/
theorem nativeValue_guard (st : CookCycState) (gso : Option GrillState)
    (limits : GrillLimits) (features : GrillFeatures)
    (h : gso = none ∨ st.num_value > st.cook_cycle.length ∨
      (0 < st.num_value ∧ ∃ gs, gso = some gs ∧ gs.system_status ∈ stopModes)) :
    nativeValue st gso limits features = some (0, ⟨0, st.old_num_value, st.cook_cycle⟩, []) := by
  rcases h with h | h | ⟨hpos, gs, rfl, hmode⟩
  · subst h; rfl
  · cases gso with
    | none => rfl
    | some gs => simp [nativeValue, h]
  · by_cases hlen : st.num_value > st.cook_cycle.length
    · simp [nativeValue, hlen]
    · simp [nativeValue, hlen, hpos, hmode]

/-- The advance block never changes the length of the step list. -/
theorem advanceBlock_length (st : CookCycState) (gs : GrillState) (limits : GrillLimits)
    (n : ℕ) (cyc : List CookStep) (cmds : List Cmd)
    (h : advanceBlock st gs limits = some (n, cyc, cmds)) :
    cyc.length = st.cook_cycle.length := by
  unfold advanceBlock at h
  split at h
  · rcases hg : st.cook_cycle.get? (st.num_value - 1) with _ | curstep <;> rw [hg] at h
    · exact absurd h (by simp)
    · simp only [Option.some.injEq, Prod.mk.injEq] at h
      rw [← h.2.1, List.length_set]
  · simp only [Option.some.injEq, Prod.mk.injEq] at h
    rw [← h.2.1]

/-- The value reported by `finishEval` never exceeds the step-list length. -/
theorem finishEval_le (num2 : ℕ) (cyc : List CookStep) (cmds : List Cmd) :
    (finishEval num2 cyc cmds).1 ≤ cyc.length := by
  unfold finishEval
  dsimp only
  split
  · exact Nat.zero_le _
  · omega

/-- Every value `native_value` actually returns is at most the length of
the loaded step list. -/
theorem nativeValue_le (st : CookCycState) (gso : Option GrillState)
    (limits : GrillLimits) (features : GrillFeatures)
    (v : ℕ) (st2 : CookCycState) (cmds : List Cmd)
    (h : nativeValue st gso limits features = some (v, st2, cmds)) :
    v ≤ st.cook_cycle.length := by
  cases gso with
  | none =>
    unfold nativeValue at h
    simp only [Option.some.injEq, Prod.mk.injEq] at h
    omega
  | some gs =>
    simp only [nativeValue] at h
    split at h
    · simp only [Option.some.injEq, Prod.mk.injEq] at h
      omega
    · split at h
      · simp only [Option.some.injEq, Prod.mk.injEq] at h
        omega
      · rcases ha : advanceBlock st gs limits with _ | ⟨n1, cyc1, cmds1⟩ <;> rw [ha] at h
        · exact absurd h (by simp)
        · dsimp only at h
          rcases he : entryBlock n1 st.old_num_value cyc1 gs features with _ | ⟨n2, cmds2⟩ <;>
            rw [he] at h
          · exact absurd h (by simp)
          · dsimp only at h
            simp only [Option.some.injEq] at h
            have hb := finishEval_le n2 cyc1 (cmds1 ++ cmds2)
            rw [h] at hb
            calc v ≤ cyc1.length := hb
              _ = st.cook_cycle.length := advanceBlock_length st gs limits n1 cyc1 cmds1 ha

/-- The raise-target sub-rule emits either nothing or exactly one command:
raise the grill target by 5 degrees. -/
theorem raiseTargetCmds_cases (curstep : CookStep) (gs : GrillState) (limits : GrillLimits) :
    (raiseTargetCmds curstep gs limits).1 = [] ∨
    (raiseTargetCmds curstep gs limits).1 = [Cmd.setGrillTemp (pyRound (gs.set + 5))] := by
  unfold raiseTargetCmds
  rcases hmd : curstep.min_delta with _ | md <;>
    rcases hmg : curstep.max_grill_delta_temp with _ | mgdt <;>
      simp only [hmd, hmg]
  · exact Or.inl trivial
  · exact Or.inl trivial
  · exact Or.inl trivial
  · split_ifs <;> simp

/-- An evaluation entered with a positive index equal to the previous index
and a non-firing advance condition passes the guards, keeps the index, and
emits only the commands of the raise-target sub-rule. -/
theorem nativeValue_same_index_noadvance (st : CookCycState) (gs : GrillState)
    (limits : GrillLimits) (features : GrillFeatures) (step : CookStep)
    (h0 : st.num_value = st.old_num_value) (h1 : 0 < st.num_value)
    (h2 : st.num_value ≤ st.cook_cycle.length)
    (h3 : gs.system_status ∉ stopModes)
    (h4 : st.cook_cycle.get? (st.num_value - 1) = some step)
    (h5 : advanceFires step gs = false) :
    nativeValue st (some gs) limits features =
      some (st.num_value,
        ⟨st.num_value, st.num_value,
          st.cook_cycle.set (st.num_value - 1) (raiseTargetCmds step gs limits).2⟩,
        (raiseTargetCmds step gs limits).1) := by
  have hlen : ¬ st.num_value > st.cook_cycle.length := by omega
  have hadv : advanceBlock st gs limits =
      some (st.num_value,
        st.cook_cycle.set (st.num_value - 1) (raiseTargetCmds step gs limits).2,
        (raiseTargetCmds step gs limits).1) := by
    unfold advanceBlock
    rw [if_pos ⟨h1, h0⟩, h4]
    simp only [h5, if_neg, Bool.false_eq_true, not_false_iff, ite_false]
  have hent : entryBlock st.num_value st.old_num_value
      (st.cook_cycle.set (st.num_value - 1) (raiseTargetCmds step gs limits).2) gs features =
      some (st.num_value, []) := by
    unfold entryBlock
    rw [if_neg]
    intro hc
    exact hc.2 h0
  simp only [nativeValue]
  rw [if_neg hlen, if_neg (by intro hc; exact h3 hc.2), hadv]
  dsimp only
  rw [hent]
  dsimp only
  unfold finishEval
  have hlen2 : ¬ st.num_value >
      (st.cook_cycle.set (st.num_value - 1) (raiseTargetCmds step gs limits).2).length := by
    rw [List.length_set]; omega
  simp only [hlen2, ite_false, List.append_nil]

/-- C1: the claim says that when the advance check fires on the final step
(index = length of the cook cycle), `native_value` completes normally and
clamps the overflowing index to 0. The code instead evaluates
`self.cook_cycle[self.num_value - 1]` in the step-entry block with
`num_value` already incremented to length + 1, accessing one step past the
end of the list: a Python `IndexError` (modelled as `none`), so the final
clamp at the end of `native_value` is never reached. Concretely: a single
timer step, index = previous index = 1, cook timer complete. -/
theorem cook_cycle_final_step_advance_crash :
    nativeValue ⟨1, 1, [{ use_timer := some true }]⟩
      (some ⟨GrillMode.custom_cook, true, false, 200, 100, 200, 0, 0, true⟩)
      ⟨500⟩ ⟨0⟩ = none := by decide

/-- C2: every guard clause of the cook-cycle `native_value` (snapshot
unavailable, stored index exceeding the step-list length, or positive index
with the grill mode in {cool_down, sleeping, shutdown, idle}) sets the
index to 0 and returns 0 with no commands; and every value `native_value`
actually returns is within [0, length of the cook cycle]. -/
theorem cook_cycle_guards_and_bounds :
    (∀ (st : CookCycState) (gso : Option GrillState) (limits : GrillLimits)
        (features : GrillFeatures),
      (gso = none ∨ st.num_value > st.cook_cycle.length ∨
        (0 < st.num_value ∧ ∃ gs, gso = some gs ∧ gs.system_status ∈ stopModes)) →
      nativeValue st gso limits features =
        some (0, ⟨0, st.old_num_value, st.cook_cycle⟩, []))
    ∧ (∀ (st : CookCycState) (gso : Option GrillState) (limits : GrillLimits)
        (features : GrillFeatures) (v : ℕ) (st2 : CookCycState) (cmds : List Cmd),
      nativeValue st gso limits features = some (v, st2, cmds) →
      v ≤ st.cook_cycle.length) :=
  ⟨nativeValue_guard, nativeValue_le⟩

/-- Witness for C2: the index-out-of-range guard fires on a concrete state
(index 5, empty cycle), and a concrete completed evaluation returns a value
within bounds. -/
theorem cook_cycle_guards_and_bounds_witness :
    nativeValue ⟨5, 2, []⟩ (some ⟨GrillMode.manual_cook, false, false, 200, 100, 200, 0, 0, true⟩)
        ⟨500⟩ ⟨0⟩ = some (0, ⟨0, 2, []⟩, [])
    ∧ (0 : ℕ) ≤ ([] : List CookStep).length :=
  ⟨cook_cycle_guards_and_bounds.1 ⟨5, 2, []⟩
      (some ⟨GrillMode.manual_cook, false, false, 200, 100, 200, 0, 0, true⟩) ⟨500⟩ ⟨0⟩
      (Or.inr (Or.inl (by decide))),
    cook_cycle_guards_and_bounds.2 ⟨0, 0, []⟩
      (some ⟨GrillMode.manual_cook, false, false, 200, 100, 200, 0, 0, true⟩) ⟨500⟩ ⟨0⟩
      0 ⟨0, 0, []⟩ [] (by decide)⟩

/-- C3: in a cooking mode with previous label `at_temp` and unchanged
target, the new label is `over_temp` exactly when current > target + swing,
`under_temp` exactly when current < target − swing, and `at_temp`
otherwise, with swing 11 in Celsius and 20 in Fahrenheit (`tempSwing`). -/
theorem heating_at_temp_hysteresis (st : HeatingClassState) (gs : GrillState) (u : TempUnits)
    (h1 : gs.system_status ∈ cookModes)
    (h2 : st.previous_state = "at_temp")
    (h3 : st.previous_target_temp = some gs.set) :
    ((heatingState st (some gs) u).1 = "over_temp" ↔ gs.grill > gs.set + tempSwing u)
    ∧ ((heatingState st (some gs) u).1 = "under_temp" ↔ gs.grill < gs.set - tempSwing u)
    ∧ ((heatingState st (some gs) u).1 = "at_temp" ↔
        (¬ gs.grill > gs.set + tempSwing u ∧ ¬ gs.grill < gs.set - tempSwing u)) := by
  have hm : gs.system_status = GrillMode.custom_cook ∨ gs.system_status = GrillMode.manual_cook := by
    simpa [cookModes] using h1
  have hres : (heatingState st (some gs) u).1 =
      (if gs.grill > gs.set + tempSwing u then "over_temp"
       else if gs.grill < gs.set - tempSwing u then "under_temp" else "at_temp") := by
    rcases hm with hm | hm <;>
      simp [heatingState, h2, h3, hm, preheatModes, cookModes]
  rw [hres]
  have hsw : 0 ≤ tempSwing u := by
    cases u
    · decide
    · decide
  refine ⟨?_, ?_, ?_⟩ <;> split_ifs with ha hb <;> simp_all <;> try linarith

/-- Witness for C3: target 225 in Fahrenheit (swing 20): current 246 gives
`over_temp`, current 204 gives `under_temp`, current 225 gives `at_temp`. -/
theorem heating_at_temp_hysteresis_witness :
    (heatingState ⟨some 225, "at_temp"⟩
      (some ⟨GrillMode.manual_cook, false, false, 246, 100, 225, 0, 0, true⟩)
      TempUnits.fahrenheit).1 = "over_temp"
    ∧ (heatingState ⟨some 225, "at_temp"⟩
      (some ⟨GrillMode.manual_cook, false, false, 204, 100, 225, 0, 0, true⟩)
      TempUnits.fahrenheit).1 = "under_temp"
    ∧ (heatingState ⟨some 225, "at_temp"⟩
      (some ⟨GrillMode.manual_cook, false, false, 225, 100, 225, 0, 0, true⟩)
      TempUnits.fahrenheit).1 = "at_temp" :=
  ⟨(heating_at_temp_hysteresis ⟨some 225, "at_temp"⟩
      ⟨GrillMode.manual_cook, false, false, 246, 100, 225, 0, 0, true⟩
      TempUnits.fahrenheit (by decide) rfl rfl).1.mpr
      (by with_unfolding_all decide),
    (heating_at_temp_hysteresis ⟨some 225, "at_temp"⟩
      ⟨GrillMode.manual_cook, false, false, 204, 100, 225, 0, 0, true⟩
      TempUnits.fahrenheit (by decide) rfl rfl).2.1.mpr
      (by with_unfolding_all decide),
    (heating_at_temp_hysteresis ⟨some 225, "at_temp"⟩
      ⟨GrillMode.manual_cook, false, false, 225, 100, 225, 0, 0, true⟩
      TempUnits.fahrenheit (by decide) rfl rfl).2.2.mpr
      (by with_unfolding_all decide)⟩

/-- C4: in a cooking mode, whenever the target differs from the previously
recorded target, or the previous label is outside the known label set, the
resulting label is `heating` if current ≤ target and `cooling` otherwise,
overriding the hysteresis result. -/
theorem heating_target_change_override (st : HeatingClassState) (gs : GrillState) (u : TempUnits)
    (h1 : gs.system_status ∈ cookModes)
    (h2 : some gs.set ≠ st.previous_target_temp ∨
      st.previous_state ∉
        ["heating", "preheating", "cooling", "at_temp", "under_temp", "over_temp"]) :
    (heatingState st (some gs) u).1 = if gs.grill ≤ gs.set then "heating" else "cooling" := by
  have hm : gs.system_status = GrillMode.custom_cook ∨ gs.system_status = GrillMode.manual_cook := by
    simpa [cookModes] using h1
  rcases h2 with h2 | h2
  · rcases hm with hm | hm <;>
      simp only [heatingState, hm, preheatModes, cookModes] <;>
        simp [h2] <;> split_ifs <;> simp_all
  · simp only [List.mem_cons, List.not_mem_nil, or_false, not_or] at h2
    obtain ⟨e1, e2, e3, e4, e5, e6⟩ := h2
    rcases hm with hm | hm <;>
      simp [heatingState, hm, preheatModes, cookModes, e1, e2, e3, e4, e5, e6]

/-- Witness for C4: previous label `idle` (outside the known set), current
246 above target 225, in manual cook: the label is `cooling`. -/
theorem heating_target_change_override_witness :
    (heatingState ⟨some 225, "idle"⟩
      (some ⟨GrillMode.manual_cook, false, false, 246, 100, 225, 0, 0, true⟩)
      TempUnits.fahrenheit).1 = "cooling" := by
  have h := heating_target_change_override ⟨some 225, "idle"⟩
    ⟨GrillMode.manual_cook, false, false, 246, 100, 225, 0, 0, true⟩
    TempUnits.fahrenheit (by decide) (Or.inr (by decide))
  rw [h]
  with_unfolding_all decide

/-- One benign evaluation keeps a set alarm latch and returns `at_temp`. -/
theorem probeBenign_step (st : ProbeClassState) (a : Accessory) (gs : GrillState)
    (u : TempUnits) (hl : st.probe_alarm = true) (hb : probeBenign st a gs u = true) :
    (probeStateEval st (some a) gs u).1 = "at_temp"
    ∧ (probeStateEval st (some a) gs u).2.probe_alarm = true := by
  simp only [probeBenign, Bool.and_eq_true, Bool.not_eq_true', Bool.and_eq_false_iff,
    decide_eq_true_eq, decide_eq_false_iff_not, not_not] at hb
  obtain ⟨⟨⟨haf, hft⟩, hmode⟩, hreset⟩ := hb
  have hnotfell : ¬ a.get_temp ≥ fellOutTemp u := not_le.mpr hft
  have hcond : ¬ ((decide (some a.set_temp ≠ st.previous_target_temp) = true ∧ a.set_temp ≠ 0)
      ∨ gs.system_status ∉ probeActiveModes) := by
    rcases hreset with hr | hr
    · intro hc
      rcases hc with ⟨hc1, hc2⟩ | hc
      · exact absurd (of_decide_eq_true hc1) (by simpa using hr)
      · exact hc hmode
    · intro hc
      rcases hc with ⟨hc1, hc2⟩ | hc
      · exact hc2 hr
      · exact hc hmode
  have hsel : ((some a.set_temp = st.previous_target_temp ∨ a.set_temp = 0)
      ∧ gs.system_status ∈ probeActiveModes) := ⟨hreset, hmode⟩
  rcases hreset with hr | hr <;> constructor <;>
    simp [probeStateEval, haf, hnotfell, hl, hcond, hsel, hr, hmode]

/-- C6: the probe alarm latch. Observing `alarm_fired` true (below the
fell-out threshold) sets the latch and returns `at_temp`; once the latch is
set, every evaluation of a benign trace (alarm flag present but false,
probe below the fell-out threshold, grill mode in the active-cooking set,
and no target change to a nonzero value) returns `at_temp` and keeps the
latch; an accessory with no `alarm_fired` field clears the latch; and the
latch is cleared when the target changes to a nonzero value or the grill
mode leaves the active-cooking set. -/
theorem probe_alarm_latch :
    (∀ (st : ProbeClassState) (a : Accessory) (gs : GrillState) (u : TempUnits),
      a.alarm_fired = some true → a.get_temp < fellOutTemp u →
      (probeStateEval st (some a) gs u).1 = "at_temp"
      ∧ (probeStateEval st (some a) gs u).2.probe_alarm = true)
    ∧ (∀ (st : ProbeClassState) (inputs : List (Accessory × GrillState)) (u : TempUnits),
      st.probe_alarm = true → probeBenignChain st inputs u = true →
      probeLabels st inputs u = List.replicate inputs.length "at_temp"
      ∧ (probeFinalState st inputs u).probe_alarm = true)
    ∧ (∀ (st : ProbeClassState) (a : Accessory) (gs : GrillState) (u : TempUnits),
      a.alarm_fired = none → (probeStateEval st (some a) gs u).2.probe_alarm = false)
    ∧ (∀ (st : ProbeClassState) (a : Accessory) (gs : GrillState) (u : TempUnits),
      a.alarm_fired = some false →
      ((some a.set_temp ≠ st.previous_target_temp ∧ a.set_temp ≠ 0) ∨
        gs.system_status ∉ probeActiveModes) →
      (probeStateEval st (some a) gs u).2.probe_alarm = false) := by
  refine ⟨?_, ?_, ?_, ?_⟩
  · intro st a gs u haf hft
    have hnotfell : ¬ a.get_temp ≥ fellOutTemp u := not_le.mpr hft
    constructor <;> simp [probeStateEval, haf, hnotfell]
  · intro st inputs u
    induction inputs generalizing st with
    | nil => intro _ _; exact ⟨rfl, by assumption⟩
    | cons p rest ih =>
      intro hl hchain
      obtain ⟨a, gs⟩ := p
      simp only [probeBenignChain, Bool.and_eq_true] at hchain
      obtain ⟨hb, hrest⟩ := hchain
      obtain ⟨hlab, hlatch⟩ := probeBenign_step st a gs u hl hb
      obtain ⟨ihl, ihf⟩ := ih (probeStateEval st (some a) gs u).2 hlatch hrest
      refine ⟨?_, ?_⟩
      · simp only [probeLabels, List.length_cons, List.replicate_succ, hlab, ihl]
      · simp only [probeFinalState, ihf]
  · intro st a gs u haf
    simp only [probeStateEval, haf]
    split_ifs <;> rfl
  · intro st a gs u haf hclear
    have hcond : ((decide (some a.set_temp ≠ st.previous_target_temp) = true ∧ a.set_temp ≠ 0)
        ∨ gs.system_status ∉ probeActiveModes) := by
      rcases hclear with ⟨hc1, hc2⟩ | hc
      · exact Or.inl ⟨decide_eq_true hc1, hc2⟩
      · exact Or.inr hc
    simp only [probeStateEval, haf]
    simp only [if_pos hcond, Bool.false_eq_true, if_false]
    split_ifs <;> rfl

/-- Witness for C6: with the latch set, a two-evaluation benign trace
(alarm flag false on both ticks, probe 150 below the 215 °F threshold,
manual cook, target unchanged at 200) returns `at_temp` on every tick and
keeps the latch; the trace hypotheses are discharged by computation. -/
theorem probe_alarm_latch_witness :
    probeLabels ⟨some 200, true⟩
      [(⟨true, 200, 150, some false⟩, ⟨GrillMode.manual_cook, false, false, 225, 150, 225, 0, 0, true⟩),
       (⟨true, 200, 160, some false⟩, ⟨GrillMode.custom_cook, false, false, 225, 160, 225, 0, 0, true⟩)]
      TempUnits.fahrenheit =
      List.replicate 2 "at_temp"
    ∧ (probeFinalState ⟨some 200, true⟩
      [(⟨true, 200, 150, some false⟩, ⟨GrillMode.manual_cook, false, false, 225, 150, 225, 0, 0, true⟩),
       (⟨true, 200, 160, some false⟩, ⟨GrillMode.custom_cook, false, false, 225, 160, 225, 0, 0, true⟩)]
      TempUnits.fahrenheit).probe_alarm = true :=
  probe_alarm_latch.2.1 ⟨some 200, true⟩
    [(⟨true, 200, 150, some false⟩, ⟨GrillMode.manual_cook, false, false, 225, 150, 225, 0, 0, true⟩),
     (⟨true, 200, 160, some false⟩, ⟨GrillMode.custom_cook, false, false, 225, 160, 225, 0, 0, true⟩)]
    TempUnits.fahrenheit rfl (by decide)

/-- C5: whenever the probe temperature is at or above the fell-out
threshold (102 °C / 215 °F), the probe classifier returns `fell_out`,
regardless of the latch, the target temperature or the grill mode. -/
theorem probe_fell_out_priority (st : ProbeClassState) (a : Accessory) (gs : GrillState)
    (u : TempUnits) (h : a.get_temp ≥ fellOutTemp u) :
    (probeStateEval st (some a) gs u).1 = "fell_out" := by
  rcases ha : a.alarm_fired with _ | af <;>
    simp [probeStateEval, ha, h]

/-- Witness for C5: probe at 220 °F (above the 215 threshold), latch set,
nonzero target, active mode: the label is still `fell_out`. -/
theorem probe_fell_out_priority_witness :
    (probeStateEval ⟨some 200, true⟩ (some ⟨true, 200, 220, some false⟩)
      ⟨GrillMode.manual_cook, false, false, 225, 220, 225, 0, 0, true⟩
      TempUnits.fahrenheit).1 = "fell_out" :=
  probe_fell_out_priority ⟨some 200, true⟩ ⟨true, 200, 220, some false⟩
    ⟨GrillMode.manual_cook, false, false, 225, 220, 225, 0, 0, true⟩
    TempUnits.fahrenheit (by decide)

/-- Counterexample to C7 as stated: an evaluation entered with current
index = previous index = 1 whose advance condition fires (timer step
complete) issues the step-entry command of the newly entered step 2 in the
same evaluation (here: set the cook timer to 600), so step-entry commands
are issued in an evaluation in which the current index equals the
previous-evaluation index. -/
theorem cook_same_index_entry_cex :
    nativeValue ⟨1, 1, [{ use_timer := some true }, { time_set := some 600 }]⟩
      (some ⟨GrillMode.custom_cook, true, false, 200, 100, 200, 0, 0, true⟩)
      ⟨500⟩ ⟨0⟩ =
      some (2, ⟨2, 2, [{ use_timer := some true }, { time_set := some 600 }]⟩,
        [Cmd.setTimer 600]) := by decide

/-- C7 (amended): for every evaluation of `native_value` in which the
current index equals the previous-evaluation index and the advance check
does not fire, none of the step-entry commands are issued and the index is
unchanged; the only command the evaluation may issue is the advance-check
path's raise-target-by-5 climate command. -/
theorem cook_same_index_no_entry (st : CookCycState) (gs : GrillState)
    (limits : GrillLimits) (features : GrillFeatures) (step : CookStep)
    (h0 : st.num_value = st.old_num_value) (h1 : 0 < st.num_value)
    (h2 : st.num_value ≤ st.cook_cycle.length)
    (h3 : gs.system_status ∉ stopModes)
    (h4 : st.cook_cycle.get? (st.num_value - 1) = some step)
    (h5 : advanceFires step gs = false) :
    (nativeValue st (some gs) limits features).map (fun r => (r.1, r.2.2))
      = some (st.num_value, (raiseTargetCmds step gs limits).1)
    ∧ ((raiseTargetCmds step gs limits).1 = []
       ∨ (raiseTargetCmds step gs limits).1 = [Cmd.setGrillTemp (pyRound (gs.set + 5))]) := by
  rw [nativeValue_same_index_noadvance st gs limits features step h0 h1 h2 h3 h4 h5]
  exact ⟨rfl, raiseTargetCmds_cases step gs limits⟩

/-- Witness for C7 (amended): a single timer step whose timer is not yet
complete, current index = previous index = 1: the evaluation reports 1 and
issues no command at all. -/
theorem cook_same_index_no_entry_witness :
    (nativeValue ⟨1, 1, [{ use_timer := some true }]⟩
      (some ⟨GrillMode.custom_cook, false, false, 200, 100, 200, 0, 0, true⟩)
      ⟨500⟩ ⟨0⟩).map (fun r => (r.1, r.2.2)) = some (1, [])
    ∧ (([] : List Cmd) = [] ∨ ([] : List Cmd) =
        [Cmd.setGrillTemp (pyRound ((200 : ℚ) + 5))]) :=
  cook_same_index_no_entry ⟨1, 1, [{ use_timer := some true }]⟩
    ⟨GrillMode.custom_cook, false, false, 200, 100, 200, 0, 0, true⟩
    ⟨500⟩ ⟨0⟩ { use_timer := some true } rfl (by decide) (by decide) (by decide) rfl rfl

/-- C8: setting the plain timer number entity fails with the
unsupported-in-current-state error exactly when the grill mode lies outside
the active cooking range igniting..custom_cook (that is, outside
{igniting, preheating, manual_cook, custom_cook}); inside that range a
value ≥ 1 sets the timer to round(value)·60 seconds and a value < 1 resets
the timer, and no error is raised. -/
theorem timer_set_active_range (gs : GrillState) (value : ℚ) :
    (exceptIsOk (timerSetNativeValue (some gs) value) = false ↔
      gs.system_status ∉
        [GrillMode.igniting, GrillMode.preheating, GrillMode.manual_cook,
          GrillMode.custom_cook])
    ∧ (gs.system_status ∈
        [GrillMode.igniting, GrillMode.preheating, GrillMode.manual_cook,
          GrillMode.custom_cook] → 1 ≤ value →
      timerSetNativeValue (some gs) value =
        Except.ok (TimerAction.setTimerSec (pyRound value * 60)))
    ∧ (gs.system_status ∈
        [GrillMode.igniting, GrillMode.preheating, GrillMode.manual_cook,
          GrillMode.custom_cook] → value < 1 →
      timerSetNativeValue (some gs) value = Except.ok TimerAction.resetTimer) := by
  by_cases hv : 1 ≤ value
  · have hv2 : value ≥ 1 := hv
    cases hgs : gs.system_status <;>
      simp [timerSetNativeValue, exceptIsOk, modeCode, hgs, hv2]
  · have hv2 : ¬ value ≥ 1 := hv
    cases hgs : gs.system_status <;>
      simp [timerSetNativeValue, exceptIsOk, modeCode, hgs, hv2]

/-- Witness for C8: in idle the setter errors; in manual cook a value of 30
sets 1800 seconds and a value of 0 resets the timer. -/
theorem timer_set_active_range_witness :
    exceptIsOk (timerSetNativeValue
      (some ⟨GrillMode.idle, false, false, 70, 70, 0, 0, 0, true⟩) 30) = false
    ∧ timerSetNativeValue
        (some ⟨GrillMode.manual_cook, false, false, 200, 100, 225, 0, 0, true⟩) 30 =
        Except.ok (TimerAction.setTimerSec 1800)
    ∧ timerSetNativeValue
        (some ⟨GrillMode.manual_cook, false, false, 200, 100, 225, 0, 0, true⟩) 0 =
        Except.ok TimerAction.resetTimer :=
  ⟨(timer_set_active_range ⟨GrillMode.idle, false, false, 70, 70, 0, 0, 0, true⟩ 30).1.mpr
      (by decide),
    by
      have h := (timer_set_active_range
        ⟨GrillMode.manual_cook, false, false, 200, 100, 225, 0, 0, true⟩ 30).2.1
        (by decide) (by decide)
      rw [h]
      with_unfolding_all rfl,
    (timer_set_active_range
      ⟨GrillMode.manual_cook, false, false, 200, 100, 225, 0, 0, true⟩ 0).2.2
      (by decide) (by decide)⟩

/-- Counterexample to C9 as stated: with the heating classifier's retained
state at previous target 225 / previous label `at_temp` and a disconnected
snapshot, `available` reports false yet leaves the retained state exactly
as it was (no reset), and the carried-over state does influence the next
label: at current 246 / target 225 in Fahrenheit the stale `at_temp` state
yields `over_temp` while a reset state would yield `cooling`. -/
theorem available_reset_cex :
    (heatingAvailable ⟨some 225, "at_temp"⟩
      (some ⟨GrillMode.custom_cook, false, false, 246, 100, 225, 0, 0, false⟩)).1 = false
    ∧ (heatingAvailable ⟨some 225, "at_temp"⟩
      (some ⟨GrillMode.custom_cook, false, false, 246, 100, 225, 0, 0, false⟩)).2 =
      ⟨some 225, "at_temp"⟩
    ∧ (heatingState ⟨some 225, "at_temp"⟩
      (some ⟨GrillMode.custom_cook, false, false, 246, 100, 225, 0, 0, true⟩)
      TempUnits.fahrenheit).1 = "over_temp"
    ∧ (heatingState ⟨none, "idle"⟩
      (some ⟨GrillMode.custom_cook, false, false, 246, 100, 225, 0, 0, true⟩)
      TempUnits.fahrenheit).1 = "cooling" := by
  refine ⟨rfl, rfl, ?_, ?_⟩ <;> with_unfolding_all decide

/-- C9 (amended): whenever `ProbeState.available` reports false it clears
the probe alarm latch, but `HeatingState.available` (inherited from the
base sensor) never touches the heating classifier's retained previous
label and previous target temperature. -/
theorem available_reset_amended :
    (∀ (st : ProbeClassState) (gso : Option GrillState) (acco : Option Accessory),
      (probeAvailable st gso acco).1 = false →
      (probeAvailable st gso acco).2.probe_alarm = false)
    ∧ (∀ (st : HeatingClassState) (gso : Option GrillState),
      (heatingAvailable st gso).2 = st) := by
  constructor
  · intro st gso acco h
    rcases gso with _ | gs <;> rcases acco with _ | a
    · rfl
    · rfl
    · rfl
    · by_cases hc : gs.connected = false
      · simp [probeAvailable, hc]
      · by_cases hcon : a.con
        · rw [probeAvailable.eq_def] at h
          simp [hc, hcon] at h
        · simp [probeAvailable, hc, hcon]
  · intro st gso
    rcases gso with _ | gs <;> rfl

/-- Witness for C9 (amended): a missing snapshot makes the probe entity
unavailable and clears a set latch; the heating entity's `available`
leaves a concrete retained state untouched. -/
theorem available_reset_amended_witness :
    (probeAvailable ⟨some 100, true⟩ none none).2.probe_alarm = false
    ∧ (heatingAvailable ⟨some 100, "heating"⟩ none).2 =
      (⟨some 100, "heating"⟩ : HeatingClassState) :=
  ⟨available_reset_amended.1 ⟨some 100, true⟩ none none rfl,
    available_reset_amended.2 ⟨some 100, "heating"⟩ none⟩

/-- C10: a guard-clause exit (snapshot unavailable, index beyond the list,
or positive index with the grill in a stopped mode) leaves `old_num_value`
and the step list untouched while resetting the reported index to 0; and a
later evaluation whose index was set back to the retained `old_num_value`
(mode cooking again, advance condition not firing) takes only the
advance-check path: the index is unchanged and the only command it may
issue is the raise-target-by-5 climate command, never a step-entry
command. -/
theorem cook_guard_frame_and_reentry :
    (∀ (st : CookCycState) (gso : Option GrillState) (limits : GrillLimits)
        (features : GrillFeatures),
      (gso = none ∨ st.num_value > st.cook_cycle.length ∨
        (0 < st.num_value ∧ ∃ gs, gso = some gs ∧ gs.system_status ∈ stopModes)) →
      nativeValue st gso limits features =
        some (0, ⟨0, st.old_num_value, st.cook_cycle⟩, []))
    ∧ (∀ (st : CookCycState) (gs : GrillState) (limits : GrillLimits)
        (features : GrillFeatures) (step : CookStep),
      0 < st.old_num_value →
      st.old_num_value ≤ st.cook_cycle.length →
      gs.system_status ∉ stopModes →
      st.cook_cycle.get? (st.old_num_value - 1) = some step →
      advanceFires step gs = false →
      (nativeValue (setNativeValue st st.old_num_value) (some gs) limits features).map
          (fun r => (r.1, r.2.2))
        = some (st.old_num_value, (raiseTargetCmds step gs limits).1)
      ∧ ((raiseTargetCmds step gs limits).1 = []
         ∨ (raiseTargetCmds step gs limits).1 = [Cmd.setGrillTemp (pyRound (gs.set + 5))])) := by
  refine ⟨nativeValue_guard, ?_⟩
  intro st gs limits features step h1 h2 h3 h4 h5
  rw [nativeValue_same_index_noadvance (setNativeValue st st.old_num_value) gs limits features
    step rfl h1 h2 h3 h4 h5]
  exact ⟨rfl, raiseTargetCmds_cases step gs limits⟩

/-- Witness for C10: a stopped-mode guard exit on a concrete one-step state
keeps `old_num_value` = 1 while reporting 0; setting the index back to 1
with the grill cooking again and the timer not complete reports 1 and
issues no command. -/
theorem cook_guard_frame_and_reentry_witness :
    nativeValue ⟨1, 1, [{ use_timer := some true }]⟩
      (some ⟨GrillMode.idle, false, false, 70, 70, 0, 0, 0, true⟩) ⟨500⟩ ⟨0⟩ =
      some (0, ⟨0, 1, [{ use_timer := some true }]⟩, [])
    ∧ (nativeValue (setNativeValue ⟨0, 1, [{ use_timer := some true }]⟩ 1)
      (some ⟨GrillMode.custom_cook, false, false, 200, 100, 200, 0, 0, true⟩)
      ⟨500⟩ ⟨0⟩).map (fun r => (r.1, r.2.2)) = some (1, [])
    ∧ (([] : List Cmd) = [] ∨ ([] : List Cmd) =
        [Cmd.setGrillTemp (pyRound ((200 : ℚ) + 5))]) :=
  ⟨cook_guard_frame_and_reentry.1 ⟨1, 1, [{ use_timer := some true }]⟩
      (some ⟨GrillMode.idle, false, false, 70, 70, 0, 0, 0, true⟩) ⟨500⟩ ⟨0⟩
      (Or.inr (Or.inr ⟨by decide,
        ⟨GrillMode.idle, false, false, 70, 70, 0, 0, 0, true⟩, rfl, by decide⟩)),
    (cook_guard_frame_and_reentry.2 ⟨0, 1, [{ use_timer := some true }]⟩
      ⟨GrillMode.custom_cook, false, false, 200, 100, 200, 0, 0, true⟩
      ⟨500⟩ ⟨0⟩ { use_timer := some true }
      (by decide) (by decide) (by decide) rfl rfl).1,
    (cook_guard_frame_and_reentry.2 ⟨0, 1, [{ use_timer := some true }]⟩
      ⟨GrillMode.custom_cook, false, false, 200, 100, 200, 0, 0, true⟩
      ⟨500⟩ ⟨0⟩ { use_timer := some true }
      (by decide) (by decide) (by decide) rfl rfl).2⟩

end Traeger
